import Mathlib

/-!
Shallow embedding of the browser-side authentication subsystem of the
repository: the state and operations of
src/servers/nextjs/contexts/AuthContext.tsx and the role-gated rendering
guard of src/servers/nextjs/components/auth/AuthComponents.tsx.

Fetch calls are modelled by passing the outcome of the network round trip
as an explicit argument; JavaScript truthiness of optional strings and
objects is modelled explicitly where the source relies on it.
-/

/-- The user record of the client (interface EIAMUser, AuthContext.tsx
lines 10-19): subject plus optional display fields, a role list, and
optional department/organization. -/
structure EIAMUser where
  sub : String
  name : Option String
  email : Option String
  given_name : Option String
  family_name : Option String
  roles : List String
  department : Option String
  organization : Option String
deriving Repr, DecidableEq

/-- The client auth state (interface AuthState, AuthContext.tsx lines
21-27). -/
structure AuthState where
  isAuthenticated : Bool
  user : Option EIAMUser
  token : Option String
  loading : Bool
  error : Option String
deriving Repr, DecidableEq

/-- The initial state passed to useState (AuthContext.tsx lines 51-57):
unauthenticated, no user, no token, loading, no error. -/
def initialAuthState : AuthState :=
  { isAuthenticated := false, user := none, token := none,
    loading := true, error := none }

/-- JavaScript truthiness of a string: false exactly for the empty
string. -/
def jsTruthyStr (s : String) : Bool := !(s == "")

/-- Body of the JSON answer of GET /api/v1/auth/check as the source reads
it: the fields data.authenticated and data.user. -/
structure CheckResponse where
  authenticated : Bool
  user : Option EIAMUser
deriving Repr, DecidableEq

/-- Outcome of the fetch in checkAuth: either fetch or response.json()
threw, or a parsed body arrived. -/
inductive CheckFetch where
  | err
  | ok (r : CheckResponse)
deriving Repr, DecidableEq

/-- Body of the JSON answer of GET /api/v1/auth/token as the source reads
it: data.success, data.user and data.token. -/
structure RefreshResponse where
  success : Bool
  user : Option EIAMUser
  token : Option String
deriving Repr, DecidableEq

/-- Outcome of the fetch in refreshToken: fetch or response.json() threw,
or response.ok was false, or a parsed body arrived. -/
inductive RefreshFetch where
  | err
  | notOk
  | ok (r : RefreshResponse)
deriving Repr, DecidableEq

/-- A browser navigation target (assignment to window.location.href):
path plus query parameters, the percent-encoding of URLSearchParams left
abstract. -/
structure NavUrl where
  path : String
  query : List (String × String)
deriving Repr, DecidableEq

/-- checkAuth (AuthContext.tsx lines 64-101) as one run: the endpoints it
fetches and the state its last setAuthState call installs.  The single
fetch targets /api/v1/auth/check; if data.authenticated and data.user are
truthy the state becomes authenticated with that user and token null,
otherwise (other bodies, or a thrown fetch) unauthenticated with user and
token null; loading is false in every terminal branch. -/
def checkAuthRun (_prev : AuthState) (f : CheckFetch) : List String × AuthState :=
  (["/api/v1/auth/check"],
    match f with
    | CheckFetch.ok r =>
      if r.authenticated && r.user.isSome then
        { isAuthenticated := true, user := r.user, token := none,
          loading := false, error := none }
      else
        { isAuthenticated := false, user := none, token := none,
          loading := false, error := none }
    | CheckFetch.err =>
      { isAuthenticated := false, user := none, token := none,
        loading := false, error := some "Authentication check failed" })

/-- The state checkAuth leaves behind. -/
def checkAuth (prev : AuthState) (f : CheckFetch) : AuthState :=
  (checkAuthRun prev f).2

/-- The mount effect (AuthContext.tsx lines 60-62): its body is the single
call checkAuth(), run once on mount against the initial state. -/
def providerMount (f : CheckFetch) : List String × AuthState :=
  checkAuthRun initialAuthState f

/-- The URL login builds (AuthContext.tsx lines 103-111): params gets a
redirect_url entry only when the optional argument is truthy (present and
non-empty), and the query is appended only when params is non-empty. -/
def loginUrl (redirectUrl : Option String) : NavUrl :=
  let params : List (String × String) :=
    match redirectUrl with
    | some r => if jsTruthyStr r then [("redirect_url", r)] else []
    | none => []
  { path := "/api/v1/auth/login", query := params }

/-- login: no setAuthState call occurs, the browser is navigated to the
login endpoint. -/
def login (prev : AuthState) (redirectUrl : Option String) : AuthState × NavUrl :=
  (prev, loginUrl redirectUrl)

/-- The state both branches of logout install (AuthContext.tsx lines
120-126 and 133-139). -/
def loggedOutState : AuthState :=
  { isAuthenticated := false, user := none, token := none,
    loading := false, error := none }

/-- logout (AuthContext.tsx lines 113-142): the try branch (endpoint call
succeeded) and the catch branch (endpoint call threw) both reset the state
and navigate to the home page. -/
def logout (_prev : AuthState) (endpointOk : Bool) : AuthState × NavUrl :=
  if endpointOk then
    (loggedOutState, { path := "/", query := [] })
  else
    (loggedOutState, { path := "/", query := [] })

/-- The state refreshToken installs on failure (lines 165-171 and
175-181). -/
def sessionExpiredState : AuthState :=
  { isAuthenticated := false, user := none, token := none,
    loading := false, error := some "Session expired" }

/-- refreshToken (AuthContext.tsx lines 144-183): a thrown fetch or a
non-ok response ends in the catch branch; an ok response with truthy
data.success and data.user keeps the previous state except for user,
token and error; any other body takes the failure branch. -/
def refreshToken (prev : AuthState) (f : RefreshFetch) : AuthState :=
  match f with
  | RefreshFetch.err => sessionExpiredState
  | RefreshFetch.notOk => sessionExpiredState
  | RefreshFetch.ok r =>
    if r.success && r.user.isSome then
      { prev with user := r.user, token := r.token, error := none }
    else
      sessionExpiredState

/-- useAuth (AuthContext.tsx lines 38-44): with no provider above, the
context is undefined and an Error is thrown; otherwise the context value
is returned. -/
def useAuth (ctx : Option AuthState) : Except String AuthState :=
  match ctx with
  | none => Except.error "useAuth must be used within an AuthProvider"
  | some c => Except.ok c

/-- One client-side operation together with the outcome of its network
round trip, covering the four operations the context exposes. -/
inductive ClientOp where
  | checkAuth (f : CheckFetch)
  | login (redirectUrl : Option String)
  | logout (endpointOk : Bool)
  | refreshToken (f : RefreshFetch)
deriving Repr, DecidableEq

/-- The state after one operation. -/
def applyOp (s : AuthState) : ClientOp → AuthState
  | ClientOp.checkAuth f => checkAuth s f
  | ClientOp.login r => (login s r).1
  | ClientOp.logout ok => (logout s ok).1
  | ClientOp.refreshToken f => refreshToken s f

/-- The state reached from the initial state by a sequence of
operations. -/
def runOps (ops : List ClientOp) : AuthState :=
  ops.foldl applyOp initialAuthState

/-- The token an operation writes into the state: only the success branch
of refreshToken stores data.token; every other branch writes null or
leaves the field as it was. -/
def storedToken : ClientOp → Option String
  | ClientOp.refreshToken (RefreshFetch.ok r) =>
      if r.success && r.user.isSome then r.token else none
  | _ => none

/-- The user an operation can install into the state, always taken from
the response body of the server. -/
def deliveredUser : ClientOp → Option EIAMUser
  | ClientOp.checkAuth (CheckFetch.ok r) =>
      if r.authenticated && r.user.isSome then r.user else none
  | ClientOp.refreshToken (RefreshFetch.ok r) =>
      if r.success && r.user.isSome then r.user else none
  | _ => none

/-- Whether a refreshToken outcome takes a failure branch: a thrown fetch,
a non-ok response, or a body without truthy success and user. -/
def refreshFails : RefreshFetch → Bool
  | RefreshFetch.err => true
  | RefreshFetch.notOk => true
  | RefreshFetch.ok r => !(r.success && r.user.isSome)

/-- Whether a checkAuth outcome takes the authenticated branch. -/
def checkSucceeds : CheckFetch → Bool
  | CheckFetch.err => false
  | CheckFetch.ok r => r.authenticated && r.user.isSome

/-- What AuthGuard (AuthComponents.tsx lines 137-173) renders: the loading
spinner, the fallback (or default LoginButton), the access-denied screen,
or the protected children. -/
inductive GuardRender where
  | spinner
  | fallback
  | accessDenied
  | children
deriving Repr, DecidableEq

/-- The role-check condition of AuthGuard line 156, with JavaScript
truthiness: requireRole truthy (present and non-empty) and user truthy
(non-null) and the role list does not include the role. -/
def roleDenied (requireRole : Option String) (user : Option EIAMUser) : Bool :=
  match requireRole, user with
  | some role, some u => jsTruthyStr role && !(u.roles.contains role)
  | _, _ => false

/-- AuthGuard (AuthComponents.tsx lines 137-173) as a pure function of the
auth state and the optional required role. -/
def AuthGuard (s : AuthState) (requireRole : Option String) : GuardRender :=
  if s.loading then GuardRender.spinner
  else if !s.isAuthenticated then GuardRender.fallback
  else if roleDenied requireRole s.user then GuardRender.accessDenied
  else GuardRender.children

/-- The role list of an optional user, the empty list for null. -/
def rolesOf : Option EIAMUser → List String
  | none => []
  | some u => u.roles

/-- A concrete user without roles, for witnesses and counterexamples. -/
def noRoleUser : EIAMUser :=
  { sub := "u1", name := none, email := none, given_name := none,
    family_name := none, roles := [], department := none,
    organization := none }

/-- A settled state that is authenticated yet has user null (reachable in
the model only as a hypothetical AuthGuard input; the guard reads the two
fields independently). -/
def authedNoUser : AuthState :=
  { isAuthenticated := true, user := none, token := none,
    loading := false, error := none }

/-- A settled authenticated state whose user has no roles. -/
def authedNoRole : AuthState :=
  { authedNoUser with user := some noRoleUser }

/-- Events after the provider mounted: the component unmounts, or a
pending checkAuth or refreshToken fetch resolves.  The source registers no
cleanup in its mount effect (lines 60-62) and guards none of its
setAuthState calls with a mounted flag or an AbortController, so a
resolution event installs its state whether or not an unmount happened
before it. -/
inductive PEvent where
  | unmount
  | checkResolve (f : CheckFetch)
  | refreshResolve (f : RefreshFetch)
deriving Repr, DecidableEq

/-- A provider instance: whether it is still mounted, and its auth
state. -/
structure ProviderRun where
  mounted : Bool
  state : AuthState
deriving Repr, DecidableEq

/-- One event step; resolution handlers update the state unconditionally,
mirroring the unguarded setAuthState calls of the source. -/
def pstep (pr : ProviderRun) : PEvent → ProviderRun
  | PEvent.unmount => { pr with mounted := false }
  | PEvent.checkResolve f => { pr with state := checkAuth pr.state f }
  | PEvent.refreshResolve f => { pr with state := refreshToken pr.state f }

/-- A freshly mounted provider. -/
def mountedProvider : ProviderRun :=
  { mounted := true, state := initialAuthState }

/-- Whether a navigation URL carries a redirect_url query parameter. -/
def hasRedirectParam (u : NavUrl) : Bool :=
  u.query.any (fun p => p.1 == "redirect_url")

/-- C4: for every call to logout, whether the endpoint call succeeds or
fails, the local state is reset to unauthenticated (isAuthenticated false,
user null, token null, error null, loading false) and the browser is
navigated to the home page. -/
theorem logout_always_resets_and_navigates_home (prev : AuthState) (endpointOk : Bool) :
    (logout prev endpointOk).1.isAuthenticated = false ∧
    (logout prev endpointOk).1.user = none ∧
    (logout prev endpointOk).1.token = none ∧
    (logout prev endpointOk).1.error = none ∧
    (logout prev endpointOk).1.loading = false ∧
    (logout prev endpointOk).2 = { path := "/", query := [] } := by
  cases endpointOk <;> exact ⟨rfl, rfl, rfl, rfl, rfl, rfl⟩

/-- C5: every refreshToken call whose fetch throws, whose response is
non-ok, or whose body lacks truthy success and user leaves the state
unauthenticated with user null and token null. -/
theorem refreshToken_failure_degrades_to_unauthenticated (prev : AuthState)
    (f : RefreshFetch) (h : refreshFails f = true) :
    (refreshToken prev f).isAuthenticated = false ∧
    (refreshToken prev f).user = none ∧
    (refreshToken prev f).token = none := by
  cases f with
  | err => exact ⟨rfl, rfl, rfl⟩
  | notOk => exact ⟨rfl, rfl, rfl⟩
  | ok r =>
    simp only [refreshFails, Bool.not_eq_eq_eq_not, Bool.not_true] at h
    simp [refreshToken, h, sessionExpiredState]

/-- Witness for C5 at the concrete non-ok outcome. -/
theorem refreshToken_failure_degrades_to_unauthenticated_witness :
    refreshFails RefreshFetch.notOk = true ∧
    ((refreshToken initialAuthState RefreshFetch.notOk).isAuthenticated = false ∧
     (refreshToken initialAuthState RefreshFetch.notOk).user = none ∧
     (refreshToken initialAuthState RefreshFetch.notOk).token = none) :=
  ⟨by decide,
   refreshToken_failure_degrades_to_unauthenticated initialAuthState RefreshFetch.notOk (by decide)⟩

/-- C9: a refreshToken call whose body has truthy success and user keeps
isAuthenticated and loading unchanged and updates only user, token and
error; in particular a successful refresh from an unauthenticated state
never makes isAuthenticated true. -/
theorem refreshToken_success_preserves_isAuthenticated (prev : AuthState)
    (r : RefreshResponse) (hs : r.success = true) (hu : r.user.isSome = true) :
    (refreshToken prev (RefreshFetch.ok r)).isAuthenticated = prev.isAuthenticated ∧
    (refreshToken prev (RefreshFetch.ok r)).loading = prev.loading ∧
    (refreshToken prev (RefreshFetch.ok r)).user = r.user ∧
    (refreshToken prev (RefreshFetch.ok r)).token = r.token ∧
    (refreshToken prev (RefreshFetch.ok r)).error = none ∧
    (prev.isAuthenticated = false →
      (refreshToken prev (RefreshFetch.ok r)).isAuthenticated = false) := by
  simp [refreshToken, hs, hu]

/-- Witness for C9: a successful refresh applied to the unauthenticated
initial state leaves isAuthenticated false. -/
theorem refreshToken_success_preserves_isAuthenticated_witness :
    (refreshToken initialAuthState
      (RefreshFetch.ok { success := true, user := some noRoleUser, token := none })).isAuthenticated
      = initialAuthState.isAuthenticated :=
  (refreshToken_success_preserves_isAuthenticated initialAuthState
    { success := true, user := some noRoleUser, token := none } rfl rfl).1

/-- C10: useAuth with an undefined context (no AuthProvider present)
throws the documented error and never returns a context value. -/
theorem useAuth_without_provider_throws :
    useAuth none = Except.error "useAuth must be used within an AuthProvider" ∧
    ∀ ctx : AuthState, useAuth none ≠ Except.ok ctx := by
  exact ⟨rfl, fun ctx h => by simp [useAuth] at h⟩

/-- C8: with loading false, isAuthenticated true and user null, AuthGuard
renders the protected children for every required role: the role check of
line 156 is skipped when the user object is null. -/
theorem authGuard_null_user_skips_role_check (s : AuthState) (r : Option String)
    (hl : s.loading = false) (ha : s.isAuthenticated = true) (hu : s.user = none) :
    AuthGuard s r = GuardRender.children := by
  cases r <;> simp [AuthGuard, hl, ha, hu, roleDenied]

/-- Witness for C8 at a concrete state and role. -/
theorem authGuard_null_user_skips_role_check_witness :
    authedNoUser.loading = false ∧ authedNoUser.isAuthenticated = true ∧
    authedNoUser.user = none ∧
    AuthGuard authedNoUser (some "admin") = GuardRender.children :=
  ⟨rfl, rfl, rfl,
   authGuard_null_user_skips_role_check authedNoUser (some "admin") rfl rfl rfl⟩

/-- C6: on mount the provider fetches the status endpoint exactly once,
and the resulting state is authenticated with the returned user precisely
when the body has authenticated true and a non-null user; in every other
case, a thrown fetch included, the state is unauthenticated with user
null; loading is false afterwards. -/
theorem providerMount_checks_status_once (f : CheckFetch) :
    (providerMount f).1 = ["/api/v1/auth/check"] ∧
    (providerMount f).1.length = 1 ∧
    (providerMount f).2.loading = false ∧
    ((providerMount f).2.isAuthenticated = true ↔ checkSucceeds f = true) ∧
    (∀ r, f = CheckFetch.ok r → (r.authenticated && r.user.isSome) = true →
      (providerMount f).2.user = r.user) ∧
    (checkSucceeds f = false →
      (providerMount f).2.isAuthenticated = false ∧ (providerMount f).2.user = none) := by
  cases f with
  | err => simp [providerMount, checkAuthRun, checkSucceeds]
  | ok r =>
    by_cases h : (r.authenticated && r.user.isSome) = true
    · simp [providerMount, checkAuthRun, checkSucceeds, h]
    · simp [providerMount, checkAuthRun, checkSucceeds, h]
      intro h1 h2
      exact absurd (by simp [h1, h2]) h

/-- Witness for C6: a successful body installs the returned user. -/
theorem providerMount_checks_status_once_witness :
    (providerMount (CheckFetch.ok { authenticated := true, user := some noRoleUser })).2.user
      = some noRoleUser :=
  (providerMount_checks_status_once
    (CheckFetch.ok { authenticated := true, user := some noRoleUser })).2.2.2.2.1
    { authenticated := true, user := some noRoleUser } rfl (by decide)

/-- C7 counterexample: calling login with the empty string supplies a
redirect target, yet the navigated URL carries no redirect_url query
parameter, because the truthiness test of line 105 skips params.set. -/
theorem login_redirect_param_counterexample :
    ¬ (hasRedirectParam (login initialAuthState (some "")).2 = true ↔
        (some "" : Option String).isSome = true) := by decide

/-- C7 amended: login leaves the auth state completely unchanged and
navigates to the login endpoint, whose redirect_url query parameter is
present exactly when a non-empty redirect target was supplied. -/
theorem login_keeps_state_and_navigates (prev : AuthState) (r : Option String) :
    (login prev r).1 = prev ∧
    (login prev r).2.path = "/api/v1/auth/login" ∧
    (hasRedirectParam (login prev r).2 = true ↔ ∃ s, r = some s ∧ s ≠ "") := by
  refine ⟨rfl, rfl, ?_⟩
  cases r with
  | none => simp [login, loginUrl, hasRedirectParam]
  | some s =>
    by_cases h : s = ""
    · subst h
      simp [login, loginUrl, hasRedirectParam, jsTruthyStr]
    · simp [login, loginUrl, hasRedirectParam, jsTruthyStr, h]

/-- Witness for C7 at a concrete non-empty redirect target. -/
theorem login_keeps_state_and_navigates_witness :
    (login loggedOutState (some "/docs")).1 = loggedOutState ∧
    hasRedirectParam (login loggedOutState (some "/docs")).2 = true := by
  refine ⟨(login_keeps_state_and_navigates loggedOutState (some "/docs")).1, ?_⟩
  exact (login_keeps_state_and_navigates loggedOutState (some "/docs")).2.2.mpr
    ⟨"/docs", rfl, by decide⟩

/-- C1 counterexample: three concrete guard evaluations contradicting the
claim as stated.  With user null and required role admin the guard renders
the children although the (empty) role set of the null user lacks the
role; with a roleless user and required role admin the guard renders the
access-denied screen, which is neither the fallback nor the children; with
the empty string supplied as required role the guard renders the children
although the role set lacks it. -/
theorem authGuard_claim_counterexample :
    (AuthGuard authedNoUser (some "admin") = GuardRender.children ∧
      (rolesOf authedNoUser.user).contains "admin" = false) ∧
    (AuthGuard authedNoRole (some "admin") = GuardRender.accessDenied ∧
      GuardRender.accessDenied ≠ GuardRender.fallback ∧
      GuardRender.accessDenied ≠ GuardRender.children) ∧
    (AuthGuard authedNoRole (some "") = GuardRender.children ∧
      (rolesOf authedNoRole.user).contains "" = false) := by decide

/-- C1 amended: with loading false, AuthGuard renders the protected
children exactly when isAuthenticated is true and, whenever a non-empty
required role is supplied and the user object is non-null, that user role
list includes the role; an unauthenticated state renders the fallback, and
an authenticated state that does not render the children renders the
access-denied screen rather than the fallback. -/
theorem authGuard_children_characterization (s : AuthState) (r : Option String)
    (h : s.loading = false) :
    (AuthGuard s r = GuardRender.children ↔
      (s.isAuthenticated = true ∧
        ∀ role u, r = some role → s.user = some u → role ≠ "" →
          u.roles.contains role = true)) ∧
    (s.isAuthenticated = false → AuthGuard s r = GuardRender.fallback) ∧
    (s.isAuthenticated = true → AuthGuard s r ≠ GuardRender.children →
      AuthGuard s r = GuardRender.accessDenied) := by
  rcases s with ⟨auth, user, token, loading, error⟩
  simp only at h
  subst h
  cases auth with
  | false => simp [AuthGuard]
  | true =>
    cases r with
    | none => simp [AuthGuard, roleDenied]
    | some role =>
      cases user with
      | none => simp [AuthGuard, roleDenied]
      | some u =>
        by_cases hrole : role = ""
        · subst hrole
          simp [AuthGuard, roleDenied, jsTruthyStr]
        · by_cases hmem : u.roles.contains role = true
          · simp [AuthGuard, roleDenied, jsTruthyStr, hrole, hmem]
          · simp [AuthGuard, roleDenied, jsTruthyStr, hrole, hmem]

/-- Witness for C1 at a concrete unauthenticated state. -/
theorem authGuard_children_characterization_witness :
    AuthGuard loggedOutState none = GuardRender.fallback :=
  (authGuard_children_characterization loggedOutState none rfl).2.1 rfl

/-- Stepping any operation whose stored token is null keeps the token
field null. -/
theorem applyOp_token_none (s : AuthState) (op : ClientOp)
    (hs : s.token = none) (hop : storedToken op = none) :
    (applyOp s op).token = none := by
  cases op with
  | checkAuth f =>
    cases f with
    | err => rfl
    | ok r =>
      by_cases hc : (r.authenticated && r.user.isSome) = true
      · simp [applyOp, checkAuth, checkAuthRun, hc]
      · simp [applyOp, checkAuth, checkAuthRun, hc]
  | login r => exact hs
  | logout ok => cases ok <;> rfl
  | refreshToken f =>
    cases f with
    | err => rfl
    | notOk => rfl
    | ok r =>
      by_cases hc : (r.success && r.user.isSome) = true
      · simp only [storedToken, hc, if_true] at hop
        simp [applyOp, refreshToken, hc, hop]
      · simp [applyOp, refreshToken, hc, sessionExpiredState]

/-- After any operation the user field is null, unchanged, or the user
delivered by the server response of that operation. -/
theorem applyOp_user_cases (s : AuthState) (op : ClientOp) :
    (applyOp s op).user = none ∨ (applyOp s op).user = s.user ∨
    (applyOp s op).user = deliveredUser op := by
  cases op with
  | checkAuth f =>
    cases f with
    | err => exact Or.inl rfl
    | ok r =>
      by_cases hc : (r.authenticated && r.user.isSome) = true
      · refine Or.inr (Or.inr ?_)
        simp [applyOp, checkAuth, checkAuthRun, deliveredUser, hc]
      · refine Or.inl ?_
        simp [applyOp, checkAuth, checkAuthRun, hc]
  | login r => exact Or.inr (Or.inl rfl)
  | logout ok => cases ok <;> exact Or.inl rfl
  | refreshToken f =>
    cases f with
    | err => exact Or.inl rfl
    | notOk => exact Or.inl rfl
    | ok r =>
      by_cases hc : (r.success && r.user.isSome) = true
      · refine Or.inr (Or.inr ?_)
        simp [applyOp, refreshToken, deliveredUser, hc]
      · refine Or.inl ?_
        simp [applyOp, refreshToken, hc, sessionExpiredState]

/-- C2 amended: in every state reachable through checkAuth, login, logout
and refreshToken, the user field is either null or exactly a
Principal-shaped user delivered by the server response of one of the
operations; and the token field is null provided no successful
refreshToken response stored a token — the success branch of refreshToken
is the one deviation, as it writes the token of the response body into the
state. -/
theorem reachable_token_null_user_from_server (ops : List ClientOp) :
    ((runOps ops).user = none ∨
      ∃ op ∈ ops, deliveredUser op = (runOps ops).user) ∧
    ((∀ op ∈ ops, storedToken op = none) → (runOps ops).token = none) := by
  induction ops using List.reverseRecOn with
  | nil => exact ⟨Or.inl rfl, fun _ => rfl⟩
  | append_singleton ops op ih =>
    have hstep : runOps (ops ++ [op]) = applyOp (runOps ops) op := by
      simp [runOps, List.foldl_append]
    constructor
    · rw [hstep]
      rcases applyOp_user_cases (runOps ops) op with hu | hu | hu
      · exact Or.inl hu
      · rcases ih.1 with hnone | ⟨o, ho, hdel⟩
        · exact Or.inl (hu.trans hnone)
        · exact Or.inr ⟨o, List.mem_append_left _ ho, hdel.trans hu.symm⟩
      · exact Or.inr ⟨op, List.mem_append_right _ (List.mem_singleton.mpr rfl), hu.symm⟩
    · intro h
      have hops : ∀ o ∈ ops, storedToken o = none := by
        intro o ho
        exact h o (List.mem_append_left _ ho)
      have hop : storedToken op = none :=
        h op (List.mem_append_right _ (List.mem_singleton.mpr rfl))
      exact hstep ▸ applyOp_token_none (runOps ops) op (ih.2 hops) hop

/-- Witness for C2 at a run of one checkAuth operation. -/
theorem reachable_token_null_user_from_server_witness :
    (runOps [ClientOp.checkAuth
      (CheckFetch.ok { authenticated := true, user := some noRoleUser })]).token = none :=
  (reachable_token_null_user_from_server
    [ClientOp.checkAuth (CheckFetch.ok { authenticated := true, user := some noRoleUser })]).2
    (by decide)

/-- C2 counterexample: one successful refreshToken whose body carries a
token reaches a client state whose token field is not null. -/
theorem reachable_state_with_stored_token :
    (runOps [ClientOp.refreshToken (RefreshFetch.ok
      { success := true, user := some noRoleUser,
        token := some "raw-access-token" })]).token = some "raw-access-token" := by
  rfl

/-- C3: the source implements no cancellation-on-unmount — the mount
effect of AuthContext.tsx lines 60-62 registers no cleanup and no
setAuthState call is guarded by a mounted flag or an AbortController — so
a checkAuth fetch that resolves after the component unmounted still
installs its result: here the stale authenticated result is applied to a
provider that is no longer mounted. -/
theorem unmounted_provider_still_applies_result :
    (pstep (pstep mountedProvider PEvent.unmount)
      (PEvent.checkResolve (CheckFetch.ok
        { authenticated := true, user := some noRoleUser }))).mounted = false ∧
    (pstep (pstep mountedProvider PEvent.unmount)
      (PEvent.checkResolve (CheckFetch.ok
        { authenticated := true, user := some noRoleUser }))).state.isAuthenticated = true ∧
    (pstep mountedProvider PEvent.unmount).state.isAuthenticated = false :=
  ⟨rfl, rfl, rfl⟩

/-- Witness for C4 at a concrete failing endpoint call. -/
theorem logout_always_resets_and_navigates_home_witness :
    (logout initialAuthState false).1.isAuthenticated = false ∧
    (logout initialAuthState false).2 = { path := "/", query := [] } :=
  ⟨(logout_always_resets_and_navigates_home initialAuthState false).1,
   (logout_always_resets_and_navigates_home initialAuthState false).2.2.2.2.2⟩

/-- Witness for C10: the thrown error at the undefined context. -/
theorem useAuth_without_provider_throws_witness :
    useAuth none = Except.error "useAuth must be used within an AuthProvider" :=
  useAuth_without_provider_throws.1
